import Mathlib

/-!
Verification development for `src/backend/create_dummy_users_xlsx.py`.

The script is a straight-line fixture generator: it builds an openpyxl
workbook, names the active sheet "Users", appends a header row and four
literal data rows, saves the workbook to `dummy_users.xlsx` and prints a
confirmation line.  We embed the workbook data model, the module body and
its observable effects (saved file, standard output, exit status) as pure
Lean definitions and prove the specified properties about them.
-/

/-- A spreadsheet cell value as the script writes it.  openpyxl stores
Python `int`, `str` and `bool` values as distinct cell types, so the
embedding keeps them distinct. -/
inductive Cell where
  | int (n : Int)
  | str (s : String)
  | bool (b : Bool)
deriving DecidableEq, Repr

/-- A worksheet: a title and the rows appended to it, in order. -/
structure Sheet where
  title : String
  cellRows : List (List Cell)
deriving DecidableEq, Repr

/-- A workbook: its sheets, the active one first.  `Workbook()` in
openpyxl starts with a single active sheet titled "Sheet". -/
structure Workbook where
  sheets : List Sheet
deriving DecidableEq, Repr

/-- `Workbook()`: a fresh workbook with one empty active sheet. -/
def Workbook.new : Workbook := ⟨[⟨"Sheet", []⟩]⟩

/-- `ws.title = t` where `ws = wb.active`: retitle the active sheet. -/
def Workbook.setActiveTitle (wb : Workbook) (t : String) : Workbook :=
  match wb.sheets with
  | [] => wb
  | s :: rest => ⟨{ s with title := t } :: rest⟩

/-- `ws.append(r)` where `ws = wb.active`: append a row to the active
sheet. -/
def Workbook.appendActive (wb : Workbook) (r : List Cell) : Workbook :=
  match wb.sheets with
  | [] => wb
  | s :: rest => ⟨{ s with cellRows := s.cellRows ++ [r] } :: rest⟩

/-- The header row appended by the script (line 10 of the source). -/
def header : List Cell :=
  [.str "pk", .str "id", .str "name", .str "email", .str "password",
   .str "created_at", .str "onboarding_complete", .str "onboarding_data"]

/-- `onboarding_data` string of the first dummy row. -/
def od1 : String := "\x7b\"step1\":true,\"step2\":true\x7d"

/-- `onboarding_data` string of the second dummy row. -/
def od2 : String := "\x7b\"step1\":true,\"step2\":false\x7d"

/-- `onboarding_data` string of the third dummy row. -/
def od3 : String := "\x7b\"step1\":true,\"step2\":true\x7d"

/-- `onboarding_data` string of the fourth dummy row. -/
def od4 : String := "\x7b\"step1\":false,\"step2\":false\x7d"

/-- First literal data row of the `rows` list in the source. -/
def userRow1 : List Cell :=
  [.int 1, .str "1", .str "John Doe", .str "john@example.com",
   .str "Password123", .str "2023-01-01T10:00:00Z", .bool true, .str od1]

/-- Second literal data row of the `rows` list in the source. -/
def userRow2 : List Cell :=
  [.int 2, .str "2", .str "Jane Smith", .str "jane@example.com",
   .str "Password456", .str "2023-02-15T12:30:00Z", .bool false, .str od2]

/-- Third literal data row of the `rows` list in the source. -/
def userRow3 : List Cell :=
  [.int 3, .str "3", .str "Test User", .str "testuser@example.com",
   .str "TestPass789", .str "2023-03-10T09:15:00Z", .bool true, .str od3]

/-- Fourth literal data row of the `rows` list in the source. -/
def userRow4 : List Cell :=
  [.int 4, .str "4", .str "Demo User", .str "demo@example.com",
   .str "DemoPass321", .str "2023-04-20T14:45:00Z", .bool false, .str od4]

/-- The `rows` list of the source (lines 15–20). -/
def rows : List (List Cell) := [userRow1, userRow2, userRow3, userRow4]

/-- The workbook as built by the module body: fresh workbook, retitle the
active sheet to "Users", append the header, then append each element of
`rows` in order.  The script never consults its command line or the
environment, which is why both parameters are unused. -/
def buildWorkbook (_argv : List String) (_env : List (String × String)) :
    Workbook :=
  let wb := Workbook.new
  let wb := wb.setActiveTitle "Users"
  let wb := wb.appendActive header
  rows.foldl (fun w r => w.appendActive r) wb

/-- Observable outcome of one run of the script: the files written (path
and content), the lines printed to standard output, and the process exit
status. -/
structure RunOutcome where
  savedFiles : List (String × Workbook)
  stdoutLines : List String
  exitCode : Nat
deriving DecidableEq, Repr

/-- The line printed by the script on success (without the trailing
newline that `print` adds). -/
def confirmationLine : String := "dummy_users.xlsx created."

/-- One run of the module body.  `saveSucceeds` models whether
`wb.save("dummy_users.xlsx")` succeeds; on failure the exception
propagates unhandled, so the confirmation line is never printed, no file
is produced, and Python exits with status 1.  On success the file is
written, the line is printed afterwards, and the process exits with 0. -/
def runScript (argv : List String) (env : List (String × String))
    (saveSucceeds : Bool) : RunOutcome :=
  let wb := buildWorkbook argv env
  if saveSucceeds then
    ⟨[("dummy_users.xlsx", wb)], [confirmationLine], 0⟩
  else
    ⟨[], [], 1⟩

/-- The active (first) sheet of a workbook. -/
def activeSheet (wb : Workbook) : Sheet := wb.sheets.headD ⟨"", []⟩

/-- Row `n` of the active sheet, with spreadsheet (1-based) numbering. -/
def rowAt (wb : Workbook) (n : Nat) : Option (List Cell) :=
  (activeSheet wb).cellRows[n - 1]?

/-- The data rows of the active sheet: everything after the header row. -/
def dataRowsOf (wb : Workbook) : List (List Cell) :=
  (activeSheet wb).cellRows.drop 1

/-- The double-quote character, written by code point to keep the
development plain. -/
def dquote : Char := Char.ofNat 34

/-- The opening-brace character. -/
def lbrace : Char := Char.ofNat 123

/-- The closing-brace character. -/
def rbrace : Char := Char.ofNat 125

/-- The backslash character. -/
def backslashChar : Char := Char.ofNat 92

/-- Scan the body of a JSON string up to its closing quote.  Accepts only
characters that JSON allows unescaped (no control characters, no
backslash, no quote), so success means the scanned text is a valid
escape-free JSON string body. -/
def scanStringBody : List Char → Option (List Char × List Char)
  | [] => none
  | c :: cs =>
    if c = dquote then some ([], cs)
    else if c.toNat < 32 ∨ c = backslashChar then none
    else
      match scanStringBody cs with
      | some (k, rest) => some (c :: k, rest)
      | none => none

/-- Parse a JSON string token (opening quote, escape-free body, closing
quote). -/
def parseStringToken (cs : List Char) : Option (String × List Char) :=
  match cs with
  | c :: rest =>
    if c = dquote then
      match scanStringBody rest with
      | some (k, r) => some (String.mk k, r)
      | none => none
    else none
  | [] => none

/-- Parse a JSON boolean literal, `true` or `false`. -/
def parseBoolLit : List Char → Option (Bool × List Char)
  | 't' :: 'r' :: 'u' :: 'e' :: rest => some (true, rest)
  | 'f' :: 'a' :: 'l' :: 's' :: 'e' :: rest => some (false, rest)
  | _ => none

/-- Parse a nonempty comma-separated sequence of `"key":boolean` members
(no whitespace, a strict subset of JSON's grammar).  `fuel` bounds the
recursion; any value past the input length is enough. -/
def parseMembers : Nat → List Char → Option (List (String × Bool) × List Char)
  | 0, _ => none
  | Nat.succ fuel, cs =>
    match parseStringToken cs with
    | none => none
    | some (k, r1) =>
      match r1 with
      | ':' :: r2 =>
        match parseBoolLit r2 with
        | none => none
        | some (b, r3) =>
          match r3 with
          | ',' :: r4 =>
            match parseMembers fuel r4 with
            | some (ps, r5) => some ((k, b) :: ps, r5)
            | none => none
          | _ => some ([(k, b)], r3)
      | _ => none

/-- Parse a whole string as a JSON object whose members are string keys
mapped to boolean literals, with no whitespace and at least one member.
Success certifies that the string is syntactically valid JSON, since the
accepted language is a strict subset of JSON's grammar. -/
def parseBoolObj (s : String) : Option (List (String × Bool)) :=
  match s.data with
  | c :: rest =>
    if c = lbrace then
      match parseMembers (rest.length + 1) rest with
      | some (ps, r) =>
        match r with
        | c2 :: tail => if c2 = rbrace ∧ tail = [] then some ps else none
        | [] => none
      | none => none
    else none
  | [] => none

/-- Decide whether `needle` occurs as a contiguous substring of `hay`. -/
def hasSubstr (needle hay : String) : Bool :=
  (List.range (hay.data.length + 1)).any
    (fun i => needle.data.isPrefixOf (hay.data.drop i))

/-- A data row satisfies the pk/id mirror invariant when its first cell
is an integer and its second cell is exactly the decimal string of that
integer. -/
def pkIdMirror (r : List Cell) : Bool :=
  match r[0]?, r[1]? with
  | some (Cell.int n), some (Cell.str s) => s == toString n
  | _, _ => false

/-- A data row is onboarding-consistent when its `onboarding_data` cell
parses as an object with members `step1` and `step2` and its
`onboarding_complete` boolean equals their conjunction. -/
def onboardingConsistent (r : List Cell) : Bool :=
  match r[6]?, r[7]? with
  | some (Cell.bool oc), some (Cell.str od) =>
    match parseBoolObj od with
    | some [(k1, b1), (k2, b2)] =>
      k1 == "step1" && k2 == "step2" && oc == (b1 && b2)
    | _ => false
  | _, _ => false

/-- A data row has well-formed onboarding data when its `onboarding_data`
cell is a string that parses as a JSON object with exactly the keys
`step1` and `step2`, each mapped to a boolean literal. -/
def validOnboardingData (r : List Cell) : Bool :=
  match r[7]? with
  | some (Cell.str od) =>
    match parseBoolObj od with
    | some ps => ps.map Prod.fst == ["step1", "step2"]
    | none => false
  | _ => false

/-- A data row's email cell is a string ending in `@example.com`. -/
def emailEndsWithExample (r : List Cell) : Bool :=
  match r[3]? with
  | some (Cell.str e) => ("@example.com").data.isSuffixOf e.data
  | _ => false

/-- C1: after a successful run, rows 2 through 5 of the sheet equal, in
order, the four literal user tuples — with each `pk` an integer cell,
each `id` a string cell, and each `onboarding_complete` a boolean cell,
as the `Cell` constructors in `userRow1`..`userRow4` record. -/
theorem C1_rows_2_to_5_are_the_literal_tuples
    (argv : List String) (env : List (String × String)) :
    rowAt (buildWorkbook argv env) 2 = some userRow1 ∧
    rowAt (buildWorkbook argv env) 3 = some userRow2 ∧
    rowAt (buildWorkbook argv env) 4 = some userRow3 ∧
    rowAt (buildWorkbook argv env) 5 = some userRow4 :=
  ⟨rfl, rfl, rfl, rfl⟩

/-- C2: row 1 of the sheet equals exactly the eight-element header
sequence, and it is the first row of the sheet, appended before any data
row. -/
theorem C2_row_1_is_the_header
    (argv : List String) (env : List (String × String)) :
    rowAt (buildWorkbook argv env) 1 = some header ∧
    (activeSheet (buildWorkbook argv env)).cellRows.head? = some header ∧
    header.length = 8 :=
  ⟨rfl, rfl, rfl⟩

/-- C3: every invocation saves the workbook under the fixed relative
filename `dummy_users.xlsx`, and that workbook contains exactly one
sheet, titled "Users". -/
theorem C3_one_sheet_titled_users_saved_as_dummy_users
    (argv : List String) (env : List (String × String)) :
    (runScript argv env true).savedFiles =
      [("dummy_users.xlsx", buildWorkbook argv env)] ∧
    (buildWorkbook argv env).sheets.map Sheet.title = ["Users"] :=
  ⟨rfl, rfl⟩

/-- C4 counterexample: row 3 of the produced sheet does not read the
John Doe tuple — it holds the second data row, so the claim that row 3
is the first data row fails on a run with no arguments. -/
theorem C4_row_3_is_not_the_first_data_row :
    rowAt (buildWorkbook [] []) 3 = some userRow2 ∧
    rowAt (buildWorkbook [] []) 3 ≠ some userRow1 := by
  constructor
  · rfl
  · decide

/-- C4 (amended): running the generator with no arguments produces a
sheet whose row 2 — the first data row — reads exactly the John Doe
tuple. -/
theorem C4_row_2_is_the_first_data_row
    (argv : List String) (env : List (String × String)) :
    rowAt (buildWorkbook argv env) 2 = some userRow1 ∧
    (dataRowsOf (buildWorkbook argv env)).head? = some userRow1 :=
  ⟨rfl, rfl⟩

/-- C5: a successful run prints exactly one line, that line contains the
substring "dummy_users.xlsx created.", and on a failed save nothing is
printed (the line comes only after the save has succeeded). -/
theorem C5_single_confirmation_line
    (argv : List String) (env : List (String × String)) :
    (runScript argv env true).stdoutLines = [confirmationLine] ∧
    hasSubstr "dummy_users.xlsx created." confirmationLine = true ∧
    (runScript argv env false).stdoutLines = [] :=
  ⟨rfl, by decide, rfl⟩

/-- C6: the generator is deterministic — no argument or environment
influences the output, so any two invocations build identical workbook
content (sheet name, header row and all data rows) and save identical
files. -/
theorem C6_deterministic
    (argv₁ : List String) (env₁ : List (String × String))
    (argv₂ : List String) (env₂ : List (String × String)) :
    buildWorkbook argv₁ env₁ = buildWorkbook argv₂ env₂ ∧
    (runScript argv₁ env₁ true).savedFiles =
      (runScript argv₂ env₂ true).savedFiles :=
  ⟨rfl, rfl⟩

/-- C7: if the final save fails, the error propagates unhandled — the
process exits with a nonzero status, no file is produced, and the
confirmation line is not printed; on success the exit status is zero. -/
theorem C7_save_failure_is_fatal
    (argv : List String) (env : List (String × String)) :
    (runScript argv env false).exitCode ≠ 0 ∧
    (runScript argv env false).stdoutLines = [] ∧
    (runScript argv env false).savedFiles = [] ∧
    (runScript argv env true).exitCode = 0 :=
  ⟨Nat.one_ne_zero, rfl, rfl, rfl⟩

/-- C8: for every data row `i` (0-based index over the four rows), the
`pk` cell is the integer `i + 1` — sequential and starting at 1 — and the
`id` cell is the decimal string rendering of that same integer. -/
theorem C8_pk_sequential_and_id_mirrors_pk (i : Fin 4) :
    ((dataRowsOf (buildWorkbook [] []))[i.val]?.getD [])[0]? =
      some (Cell.int (i.val + 1)) ∧
    pkIdMirror ((dataRowsOf (buildWorkbook [] []))[i.val]?.getD []) = true := by
  fin_cases i <;> exact ⟨rfl, by decide⟩

/-- C9: in each of the four data rows, the `onboarding_complete` boolean
equals the conjunction of the `step1` and `step2` booleans encoded in
that row's `onboarding_data` JSON string. -/
theorem C9_onboarding_complete_is_step1_and_step2 :
    (dataRowsOf (buildWorkbook [] [])).all onboardingConsistent = true := by
  decide

/-- C10: every `onboarding_data` cell parses as a JSON object with
exactly the keys `step1` and `step2`, each a boolean literal, and every
email cell ends with `@example.com`. -/
theorem C10_onboarding_json_valid_and_emails_at_example :
    (dataRowsOf (buildWorkbook [] [])).all
      (fun r => validOnboardingData r && emailEndsWithExample r) = true := by
  decide
